import Mathlib

/-!
Verification of the common-emitter amplifier analysis pipeline.

The repository contains two Python variants of the same analysis:
a run-once script (`CommonEmitterAnalysis.py`, reading module-level
globals inside several stage functions) and a GUI application
(`CommonEmitterAnalysisApp.py`, passing every value as a parameter).
Both are embedded below over `ℚ` (exact rational arithmetic standing
for Python floats).  Python's `/` raises `ZeroDivisionError` when the
denominator is zero, so each stage returns an `Option`: immediately
before every division of the source, the embedding tests the
denominator (in the source's evaluation order) and produces `none` —
a raised exception propagating to the caller — when it is zero;
otherwise the division is exact.
-/

/-- Value published by the script's `StiffDivider` stage: Python replaces the
boolean `False` by the string literal `'True'` before printing, so the
published value is either a boolean or that one string (modelled as
`strTrue`). -/
inductive StiffOutput where
  | bool (b : Bool)
  | strTrue
deriving DecidableEq

namespace App

/-- `DCAnalysis` of `CommonEmitterAnalysisApp.py` (lines 71-77): bias point
from the divider; returns `(VB, VE, ICEQ, VC, VCEQ)`. -/
def DCAnalysis (VCC Beta RS R1 R2 RE1 RE2 RC RL : ℚ) :
    Option (ℚ × ℚ × ℚ × ℚ × ℚ) :=
  if R2 + R1 = 0 then none else
  let VB := VCC * (R2 / (R2 + R1))
  let VE := VB - 0.7
  if RE1 + RE2 = 0 then none else
  let ICEQ := VE / (RE1 + RE2)
  let VC := VCC - ICEQ * RC
  let VCEQ := VC - VE
  some (VB, VE, ICEQ, VC, VCEQ)

/-- `ACAnalysis` of `CommonEmitterAnalysisApp.py` (lines 80-90): small-signal
quantities; returns `(ro, re, rc, Zbase, Zin, Zout, Vin, Av, Vout)`.  Each
zero test guards the next division of the source, in evaluation order. -/
def ACAnalysis (ICEQ VCC Beta RS R1 R2 RE1 RE2 RC RL Zg Vs VA Frequency : ℚ) :
    Option (ℚ × ℚ × ℚ × ℚ × ℚ × ℚ × ℚ × ℚ × ℚ) :=
  if ICEQ = 0 then none else
  let ro := VA / ICEQ
  let re := 0.025 / ICEQ
  if RC = 0 then none else
  if RL = 0 then none else
  if 1 / RC + 1 / RL = 0 then none else
  let rc := 1 / (1 / RC + 1 / RL)
  let Zbase := (RE1 + re) * Beta
  if R1 = 0 then none else
  if R2 = 0 then none else
  if Beta * (RE1 + re) = 0 then none else
  if 1 / R1 + 1 / R2 + 1 / (Beta * (RE1 + re)) = 0 then none else
  let Zin := RS + 1 / (1 / R1 + 1 / R2 + 1 / (Beta * (RE1 + re)))
  if ro = 0 then none else
  if 1 / RC + 1 / RL + 1 / ro = 0 then none else
  let Zout := 1 / (1 / RC + 1 / RL + 1 / ro)
  if Zin + Zg + RS = 0 then none else
  let Vin := Vs * (Zin / (Zin + Zg + RS))
  if RE1 + re = 0 then none else
  let Av := rc / (RE1 + re)
  let Vout := Av * Vin
  some (ro, re, rc, Zbase, Zin, Zout, Vin, Av, Vout)

/-- `Qpoint` of `CommonEmitterAnalysisApp.py` (lines 93-95): optimum emitter
resistance, taking `VCC` and `RC` as parameters. -/
def Qpoint (VCC VE rc RC : ℚ) : Option ℚ :=
  if VCC - VE = 0 then none else
  some (VE * (RC + rc) / (VCC - VE))

/-- `MPP` of `CommonEmitterAnalysisApp.py` (lines 98-100): maximum symmetric
peak-to-peak swing, the minimum of the current-limited and voltage-limited
bounds. -/
def MPP (VCEQ ICEQ rc : ℚ) : ℚ :=
  min (2 * (ICEQ * rc)) (2 * VCEQ)

/-- `CurrentDrain` of `CommonEmitterAnalysisApp.py` (lines 103-106). -/
def CurrentDrain (VCC ICEQ R1 R2 : ℚ) : Option (ℚ × ℚ) :=
  if R1 + R2 = 0 then none else
  let Ibias := VCC / (R1 + R2)
  let IS := Ibias + ICEQ
  some (Ibias, IS)

/-- `Power` of `CommonEmitterAnalysisApp.py` (lines 109-114): DC dissipation,
AC load power, source power and efficiency. -/
def Power (VCEQ ICEQ Mpp RL VCC IS : ℚ) : Option (ℚ × ℚ × ℚ × ℚ) :=
  let PD := VCEQ * ICEQ
  if 8 * RL = 0 then none else
  let PL := Mpp ^ 2 / (8 * RL)
  let PS := VCC * IS
  if PS = 0 then none else
  let Efficiency := PL / PS * 100
  some (PD, PL, PS, Efficiency)

/-- `DCLoadline` of `CommonEmitterAnalysisApp.py` (lines 118-121). -/
def DCLoadline (VCC VE RC : ℚ) : Option (ℚ × ℚ) :=
  let VCEcutoff := VCC - VE
  if RC = 0 then none else
  let ICsaturation := (VCC - VE) / RC
  some (VCEcutoff, ICsaturation)

/-- `ACLoadline` of `CommonEmitterAnalysisApp.py` (lines 124-127). -/
def ACLoadline (VCEQ ICEQ rc : ℚ) : Option (ℚ × ℚ) :=
  let ACcutoff := VCEQ + ICEQ * rc
  if rc = 0 then none else
  let ACsaturation := ICEQ + VCEQ / rc
  some (ACcutoff, ACsaturation)

/-- Sample grid of numpy's `linspace(a, b)` with the default `num = 50`: the
50 evenly spaced values `a + k·(b − a)/49` for `k = 0, …, 49`, both endpoints
included. -/
def linspace (a b : ℚ) : List ℚ :=
  (List.range 50).map fun k : ℕ => a + (k : ℚ) * ((b - a) / 49)

/-- `Loadlineplot` of `CommonEmitterAnalysisApp.py` (lines 130-155): the
load-line plot dataset — the four `linspace` polyline coordinate arrays and
the axis bounds `[0, VCC] × [0, VCC/rc]`; `VCC` and `rc` are parameters, and
`VCC/rc` raises when `rc = 0`.  The figure/canvas embedding is
presentation. -/
def Loadlineplot (VCEcutoff ICsaturation ACcutoff ACsaturation VCC rc : ℚ) :
    Option (List ℚ × List ℚ × List ℚ × List ℚ × (ℚ × ℚ) × (ℚ × ℚ)) :=
  let xDC := linspace 0 VCEcutoff
  let yDC := linspace ICsaturation 0
  let xAC := linspace ACcutoff 0
  let yAC := linspace 0 ACsaturation
  if rc = 0 then none else
  some (xDC, yDC, xAC, yAC, (0, VCC), (0, VCC / rc))

/-- Time grid of numpy's `arange(start, stop, step)`: the values
`start + k·step` for `k < ⌈(stop − start)/step⌉` (empty when that ceiling is
not positive). -/
def arange (start stop step : ℚ) : List ℚ :=
  (List.range (⌈(stop - start) / step⌉.toNat)).map fun k : ℕ => start + (k : ℚ) * step

/-- `Waveforms` of `CommonEmitterAnalysisApp.py` (lines 158-164): the sampled
time grid `t1 = arange(0, Duration + Ts1, Ts1)` with `Ts1 = 1/(50·Frequency)`.
The sinusoid amplitudes `a1 = Vs·sin(2π·Frequency·t)` and
`a2 = −Vout·sin(2π·Frequency·t)` and the plotting are presentation applied
pointwise to this grid; the grid is the computed dataset shape. -/
def Waveforms (Duration Frequency Vs Vout : ℚ) : Option (List ℚ) :=
  let T1 := Duration
  let fs1 := 50 * Frequency
  if fs1 = 0 then none else
  let Ts1 := 1 / fs1
  some (arange 0 (T1 + Ts1) Ts1)

/-- Record of every scalar the GUI `calculate` callback computes and
displays, plus the waveform time grid, named after the source labels. -/
structure Results where
  VB : ℚ
  VE : ℚ
  ICEQ : ℚ
  VC : ℚ
  VCEQ : ℚ
  ro : ℚ
  re : ℚ
  rc : ℚ
  Zbase : ℚ
  Zin : ℚ
  Zout : ℚ
  Vin : ℚ
  Av : ℚ
  Vout : ℚ
  REop : ℚ
  Mpp : ℚ
  Ibias : ℚ
  IS : ℚ
  PD : ℚ
  PL : ℚ
  PS : ℚ
  Efficiency : ℚ
  VCEcutoff : ℚ
  ICsaturation : ℚ
  ACcutoff : ℚ
  ACsaturation : ℚ
  t1 : List ℚ
deriving DecidableEq

/-- Computation core of the GUI `calculate` callback
(`CommonEmitterAnalysisApp.py`, lines 199-217): the full pipeline, each stage
consuming prior outputs.  A raised `ZeroDivisionError` in any stage aborts the
invocation with no results (the label updates never run). -/
def calculate (VCC RS R1 R2 RE1 RE2 RC RL Beta VA Zg Vs Frequency Duration : ℚ) :
    Option Results := do
  let (VB, VE, ICEQ, VC, VCEQ) ← DCAnalysis VCC Beta RS R1 R2 RE1 RE2 RC RL
  let (ro, re, rc, Zbase, Zin, Zout, Vin, Av, Vout) ←
    ACAnalysis ICEQ VCC Beta RS R1 R2 RE1 RE2 RC RL Zg Vs VA Frequency
  let REop ← Qpoint VCC VE rc RC
  let Mpp := MPP VCEQ ICEQ rc
  let (Ibias, IS) ← CurrentDrain VCC ICEQ R1 R2
  let (PD, PL, PS, Efficiency) ← Power VCEQ ICEQ Mpp RL VCC IS
  let (VCEcutoff, ICsaturation) ← DCLoadline VCC VE RC
  let (ACcutoff, ACsaturation) ← ACLoadline VCEQ ICEQ rc
  let t1 ← Waveforms Duration Frequency Vs Vout
  return ⟨VB, VE, ICEQ, VC, VCEQ, ro, re, rc, Zbase, Zin, Zout, Vin, Av, Vout,
    REop, Mpp, Ibias, IS, PD, PL, PS, Efficiency,
    VCEcutoff, ICsaturation, ACcutoff, ACsaturation, t1⟩

end App

namespace Script

/-- `StiffDivider` of `CommonEmitterAnalysis.py` (lines 65-72): computes the
boolean `A ≥ B`, but replaces a `False` result by the string `'True'` before
publishing it. -/
def StiffDivider (Beta RE1 RE2 R1 R2 : ℚ) : Option StiffOutput :=
  let A := Beta * (RE1 + RE2)
  if R1 = 0 then none else
  if R2 = 0 then none else
  if 1 / R1 + 1 / R2 = 0 then none else
  let B := 10 * (1 / (1 / R1 + 1 / R2))
  let s : Bool := decide (A ≥ B)
  some (if s = false then StiffOutput.strTrue else StiffOutput.bool s)

/-- `DCAnalysis` of `CommonEmitterAnalysis.py` (lines 75-86): identical
equations to the App variant but returns only `(VE, ICEQ, VC, VCEQ)`. -/
def DCAnalysis (VCC Beta RS R1 R2 RE1 RE2 RC RL : ℚ) :
    Option (ℚ × ℚ × ℚ × ℚ) :=
  if R2 + R1 = 0 then none else
  let VB := VCC * (R2 / (R2 + R1))
  let VE := VB - 0.7
  if RE1 + RE2 = 0 then none else
  let ICEQ := VE / (RE1 + RE2)
  let VC := VCC - ICEQ * RC
  let VCEQ := VC - VE
  some (VE, ICEQ, VC, VCEQ)

/-- `ACAnalysis` of `CommonEmitterAnalysis.py` (lines 89-108): same equations
as the App variant, each division guarded in evaluation order. -/
def ACAnalysis (ICEQ VCC Beta RS R1 R2 RE1 RE2 RC RL Zg Vs VA Frequency : ℚ) :
    Option (ℚ × ℚ × ℚ × ℚ × ℚ × ℚ × ℚ × ℚ × ℚ) :=
  if ICEQ = 0 then none else
  let ro := VA / ICEQ
  let re := 0.025 / ICEQ
  if RC = 0 then none else
  if RL = 0 then none else
  if 1 / RC + 1 / RL = 0 then none else
  let rc := 1 / (1 / RC + 1 / RL)
  let Zbase := (RE1 + re) * Beta
  if R1 = 0 then none else
  if R2 = 0 then none else
  if Beta * (RE1 + re) = 0 then none else
  if 1 / R1 + 1 / R2 + 1 / (Beta * (RE1 + re)) = 0 then none else
  let Zin := RS + 1 / (1 / R1 + 1 / R2 + 1 / (Beta * (RE1 + re)))
  if ro = 0 then none else
  if 1 / RC + 1 / RL + 1 / ro = 0 then none else
  let Zout := 1 / (1 / RC + 1 / RL + 1 / ro)
  if Zin + Zg + RS = 0 then none else
  let Vin := Vs * (Zin / (Zin + Zg + RS))
  if RE1 + re = 0 then none else
  let Av := rc / (RE1 + re)
  let Vout := Av * Vin
  some (ro, re, rc, Zbase, Zin, Zout, Vin, Av, Vout)

/-- `Qpoint` of `CommonEmitterAnalysis.py` (lines 111-114): reads the
module-level globals `VCC` and `RC`, passed here as the two leading
arguments; the Python parameters are `(VE, rc)`. -/
def Qpoint (VCC RC : ℚ) (VE rc : ℚ) : Option ℚ :=
  if VCC - VE = 0 then none else
  some (VE * (RC + rc) / (VCC - VE))

/-- `MPP` of `CommonEmitterAnalysis.py` (lines 117-120). -/
def MPP (VCEQ ICEQ rc : ℚ) : ℚ :=
  min (2 * (ICEQ * rc)) (2 * VCEQ)

/-- `CurrentDrain` of `CommonEmitterAnalysis.py` (lines 123-128): reads the
globals `VCC`, `R1`, `R2` (leading arguments); Python parameter `ICEQ`. -/
def CurrentDrain (VCC R1 R2 : ℚ) (ICEQ : ℚ) : Option (ℚ × ℚ) :=
  if R1 + R2 = 0 then none else
  let Ibias := VCC / (R1 + R2)
  let IS := Ibias + ICEQ
  some (Ibias, IS)

/-- `Power` of `CommonEmitterAnalysis.py` (lines 131-140): reads the globals
`Mpp`, `RL`, `VCC` (leading arguments); Python parameters `(VCEQ, ICEQ, IS)`. -/
def Power (Mpp RL VCC : ℚ) (VCEQ ICEQ IS : ℚ) : Option (ℚ × ℚ × ℚ × ℚ) :=
  let PD := VCEQ * ICEQ
  if 8 * RL = 0 then none else
  let PL := Mpp ^ 2 / (8 * RL)
  let PS := VCC * IS
  if PS = 0 then none else
  let Efficiency := PL / PS * 100
  some (PD, PL, PS, Efficiency)

/-- `DCLoadline` of `CommonEmitterAnalysis.py` (lines 145-150): reads the
globals `VCC` and `RC` (leading arguments); Python parameter `VE`. -/
def DCLoadline (VCC RC : ℚ) (VE : ℚ) : Option (ℚ × ℚ) :=
  let VCEcutoff := VCC - VE
  if RC = 0 then none else
  let ICsaturation := (VCC - VE) / RC
  some (VCEcutoff, ICsaturation)

/-- `ACLoadline` of `CommonEmitterAnalysis.py` (lines 154-159). -/
def ACLoadline (VCEQ ICEQ rc : ℚ) : Option (ℚ × ℚ) :=
  let ACcutoff := VCEQ + ICEQ * rc
  if rc = 0 then none else
  let ACsaturation := ICEQ + VCEQ / rc
  some (ACcutoff, ACsaturation)

/-- `Loadlineplot` of `CommonEmitterAnalysis.py` (lines 161-181): the same
load-line plot dataset as the App variant, but reading the module-level
globals `VCC` and `rc` (the two leading arguments); the Python parameters
are `(VCEcutoff, ICsaturation, ACcutoff, ACsaturation)`. -/
def Loadlineplot (VCC rc : ℚ)
    (VCEcutoff ICsaturation ACcutoff ACsaturation : ℚ) :
    Option (List ℚ × List ℚ × List ℚ × List ℚ × (ℚ × ℚ) × (ℚ × ℚ)) :=
  let xDC := App.linspace 0 VCEcutoff
  let yDC := App.linspace ICsaturation 0
  let xAC := App.linspace ACcutoff 0
  let yAC := App.linspace 0 ACsaturation
  if rc = 0 then none else
  some (xDC, yDC, xAC, yAC, (0, VCC), (0, VCC / rc))

/-- `Waveforms` of `CommonEmitterAnalysis.py` (lines 184-190): same time grid
as the App variant. -/
def Waveforms (Duration Frequency Vs Vout : ℚ) : Option (List ℚ) :=
  let T1 := Duration
  let fs1 := 50 * Frequency
  if fs1 = 0 then none else
  let Ts1 := 1 / fs1
  some (App.arange 0 (T1 + Ts1) Ts1)

end Script

/-! ### Claim theorems -/

/-- C1: for every input, the MPP stage returns exactly
`min (2·ICEQ·rc) (2·VCEQ)` — the smaller of the current-limited and
voltage-limited bounds, with no averaging: it never exceeds either bound,
equals the first bound whenever that one is smaller (or tied), and equals
the second whenever that one is smaller (or tied). -/
theorem MPP_min (VCEQ ICEQ rc : ℚ) :
    App.MPP VCEQ ICEQ rc = min (2 * (ICEQ * rc)) (2 * VCEQ) ∧
    App.MPP VCEQ ICEQ rc ≤ 2 * (ICEQ * rc) ∧
    App.MPP VCEQ ICEQ rc ≤ 2 * VCEQ ∧
    (2 * (ICEQ * rc) ≤ 2 * VCEQ → App.MPP VCEQ ICEQ rc = 2 * (ICEQ * rc)) ∧
    (2 * VCEQ ≤ 2 * (ICEQ * rc) → App.MPP VCEQ ICEQ rc = 2 * VCEQ) :=
  ⟨rfl, min_le_left _ _, min_le_right _ _,
    fun h => min_eq_left h, fun h => min_eq_right h⟩

/-- Witness for C1 at `VCEQ = 5`, `ICEQ = 1`, `rc = 3`, where the
current-limited bound `6` is strictly below the voltage-limited bound `10`. -/
theorem MPP_min_witness :
    App.MPP 5 1 3 = min (2 * (1 * 3)) (2 * 5) ∧
    App.MPP 5 1 3 ≤ 2 * (1 * 3) ∧
    App.MPP 5 1 3 ≤ 2 * 5 ∧
    (2 * (1 * 3) ≤ 2 * (5 : ℚ) → App.MPP 5 1 3 = 2 * (1 * 3)) ∧
    (2 * (5 : ℚ) ≤ 2 * (1 * 3) → App.MPP 5 1 3 = 2 * 5) :=
  MPP_min 5 1 3

/-- C4 (code bug): at `Beta = 1`, `RE1 = RE2 = 0`, `R1 = R2 = 2` the stiffness
predicate `A ≥ B` is false (`A = 0`, `B = 10`), yet the published value of
`StiffDivider` is the string `'True'`: the source replaces the `False`
boolean by `'True'` instead of returning the boolean unmodified. -/
theorem StiffDivider_inverts_false :
    Script.StiffDivider 1 0 0 2 2 = some StiffOutput.strTrue ∧
    ¬((1 : ℚ) * (0 + 0) ≥ 10 * (1 / (1 / 2 + 1 / 2))) := by
  refine ⟨by norm_num [Script.StiffDivider], by norm_num⟩

/-- C5 fails on the code: at the reference inputs the DC stage computes
`VB = 620/531 ≈ 1.1676`, not `≈ 1.2258` as claimed (off by more than `1/100`),
and `VC = 4916/1239 ≈ 3.9677`, not `≈ 1.9786` (off by more than `1`). -/
theorem DCAnalysis_reference_not_golden :
    App.DCAnalysis 20 380 8000 10000000 620000 270 430 24000 2700 =
      some (620/531, 2483/5310, 2483/3717000, 4916/1239, 130099/37170) ∧
    (620/531 : ℚ) + 1/100 < 12258/10000 ∧
    (19786/10000 : ℚ) + 1 < 4916/1239 := by
  refine ⟨by norm_num [App.DCAnalysis], by norm_num, by norm_num⟩

/-- C5 amended: at the reference inputs the DC stage produces exactly
`VB = 620/531`, `VE = 2483/5310`, `ICEQ = 2483/3717000`, `VC = 4916/1239`
(and `VCEQ = 130099/37170`), i.e. `VB ≈ 1.1676`, `VE ≈ 0.4676`,
`ICEQ ≈ 0.000668`, `VC ≈ 3.9677` to within the displayed precision. -/
theorem DCAnalysis_reference :
    App.DCAnalysis 20 380 8000 10000000 620000 270 430 24000 2700 =
      some (620/531, 2483/5310, 2483/3717000, 4916/1239, 130099/37170) ∧
    |(620/531 : ℚ) - 11676/10000| < 1/10000 ∧
    |(2483/5310 : ℚ) - 4676/10000| < 1/10000 ∧
    |(2483/3717000 : ℚ) - 668/1000000| < 1/1000000 ∧
    |(4916/1239 : ℚ) - 39677/10000| < 1/10000 := by
  refine ⟨by norm_num [App.DCAnalysis], ?_, ?_, ?_, ?_⟩ <;>
    rw [abs_sub_lt_iff] <;> constructor <;> norm_num

/-- C2: for every input with `R1 + R2 ≠ 0` and `RE1 + RE2 ≠ 0` the DC stage
returns exactly `VB = VCC·R2/(R1+R2)`, `VE = VB − 0.7`,
`ICEQ = VE/(RE1+RE2)`, `VC = VCC − ICEQ·RC` and `VCEQ = VC − VE`; in
particular `VCEQ = VC − VE` and `VC = VCC − ICEQ·RC` hold for the returned
values. -/
theorem DCAnalysis_equations (VCC Beta RS R1 R2 RE1 RE2 RC RL : ℚ)
    (h1 : R1 + R2 ≠ 0) (h2 : RE1 + RE2 ≠ 0) :
    ∃ VB VE ICEQ VC VCEQ,
      App.DCAnalysis VCC Beta RS R1 R2 RE1 RE2 RC RL =
        some (VB, VE, ICEQ, VC, VCEQ) ∧
      VB = VCC * R2 / (R1 + R2) ∧ VE = VB - 0.7 ∧
      ICEQ = VE / (RE1 + RE2) ∧ VC = VCC - ICEQ * RC ∧ VCEQ = VC - VE := by
  have h1' : R2 + R1 ≠ 0 := by rwa [add_comm]
  refine ⟨VCC * (R2 / (R2 + R1)), VCC * (R2 / (R2 + R1)) - 0.7,
    (VCC * (R2 / (R2 + R1)) - 0.7) / (RE1 + RE2),
    VCC - (VCC * (R2 / (R2 + R1)) - 0.7) / (RE1 + RE2) * RC, _,
    ?_, ?_, rfl, rfl, rfl, rfl⟩
  · simp [App.DCAnalysis, h1', h2]
  · rw [mul_div_assoc, add_comm R1 R2]

/-- Witness for C2 at the reference inputs. -/
theorem DCAnalysis_equations_witness :
    ((10000000 : ℚ) + 620000 ≠ 0) ∧ ((270 : ℚ) + 430 ≠ 0) ∧
    ∃ VB VE ICEQ VC VCEQ,
      App.DCAnalysis 20 380 8000 10000000 620000 270 430 24000 2700 =
        some (VB, VE, ICEQ, VC, VCEQ) ∧
      VB = 20 * 620000 / (10000000 + 620000) ∧ VE = VB - 0.7 ∧
      ICEQ = VE / (270 + 430) ∧ VC = 20 - ICEQ * 24000 ∧ VCEQ = VC - VE :=
  ⟨by norm_num, by norm_num,
    DCAnalysis_equations 20 380 8000 10000000 620000 270 430 24000 2700
      (by norm_num) (by norm_num)⟩

set_option maxHeartbeats 1000000 in
/-- C7: for every input in which a required denominator is exactly zero —
the divider sum `R1 + R2` or emitter sum `RE1 + RE2` (DC stage), the
quiescent current `ICEQ` or any of the three aggregate reciprocal sums of
`rc`, `Zin`, `Zout` (AC stage), the headroom `VCC − VE` (Q-point stage), or
the source power `PS = VCC·IS` (Power stage) — the stage containing that
denominator raises `ZeroDivisionError` (returns `none`), and the pipeline
invocation returns no results at all: no infinity, no NaN, no partial output
record. -/
theorem calculate_zero_denominator
    (VCC RS R1 R2 RE1 RE2 RC RL Beta VA Zg Vs Frequency Duration : ℚ) :
    (R1 + R2 = 0 →
      App.DCAnalysis VCC Beta RS R1 R2 RE1 RE2 RC RL = none ∧
      App.calculate VCC RS R1 R2 RE1 RE2 RC RL Beta VA Zg Vs Frequency
        Duration = none) ∧
    (RE1 + RE2 = 0 →
      App.DCAnalysis VCC Beta RS R1 R2 RE1 RE2 RC RL = none ∧
      App.calculate VCC RS R1 R2 RE1 RE2 RC RL Beta VA Zg Vs Frequency
        Duration = none) ∧
    (∀ VB VE ICEQ VC VCEQ,
      App.DCAnalysis VCC Beta RS R1 R2 RE1 RE2 RC RL =
        some (VB, VE, ICEQ, VC, VCEQ) →
      ICEQ = 0 →
      App.ACAnalysis ICEQ VCC Beta RS R1 R2 RE1 RE2 RC RL Zg Vs VA Frequency
        = none ∧
      App.calculate VCC RS R1 R2 RE1 RE2 RC RL Beta VA Zg Vs Frequency
        Duration = none) ∧
    (∀ VB VE ICEQ VC VCEQ,
      App.DCAnalysis VCC Beta RS R1 R2 RE1 RE2 RC RL =
        some (VB, VE, ICEQ, VC, VCEQ) →
      1 / RC + 1 / RL = 0 →
      App.ACAnalysis ICEQ VCC Beta RS R1 R2 RE1 RE2 RC RL Zg Vs VA Frequency
        = none ∧
      App.calculate VCC RS R1 R2 RE1 RE2 RC RL Beta VA Zg Vs Frequency
        Duration = none) ∧
    (∀ VB VE ICEQ VC VCEQ,
      App.DCAnalysis VCC Beta RS R1 R2 RE1 RE2 RC RL =
        some (VB, VE, ICEQ, VC, VCEQ) →
      1 / R1 + 1 / R2 + 1 / (Beta * (RE1 + 0.025 / ICEQ)) = 0 →
      App.ACAnalysis ICEQ VCC Beta RS R1 R2 RE1 RE2 RC RL Zg Vs VA Frequency
        = none ∧
      App.calculate VCC RS R1 R2 RE1 RE2 RC RL Beta VA Zg Vs Frequency
        Duration = none) ∧
    (∀ VB VE ICEQ VC VCEQ,
      App.DCAnalysis VCC Beta RS R1 R2 RE1 RE2 RC RL =
        some (VB, VE, ICEQ, VC, VCEQ) →
      1 / RC + 1 / RL + 1 / (VA / ICEQ) = 0 →
      App.ACAnalysis ICEQ VCC Beta RS R1 R2 RE1 RE2 RC RL Zg Vs VA Frequency
        = none ∧
      App.calculate VCC RS R1 R2 RE1 RE2 RC RL Beta VA Zg Vs Frequency
        Duration = none) ∧
    (∀ VB VE ICEQ VC VCEQ ro re rc Zbase Zin Zout Vin Av Vout,
      App.DCAnalysis VCC Beta RS R1 R2 RE1 RE2 RC RL =
        some (VB, VE, ICEQ, VC, VCEQ) →
      App.ACAnalysis ICEQ VCC Beta RS R1 R2 RE1 RE2 RC RL Zg Vs VA Frequency
        = some (ro, re, rc, Zbase, Zin, Zout, Vin, Av, Vout) →
      VCC - VE = 0 →
      App.Qpoint VCC VE rc RC = none ∧
      App.calculate VCC RS R1 R2 RE1 RE2 RC RL Beta VA Zg Vs Frequency
        Duration = none) ∧
    (∀ VB VE ICEQ VC VCEQ ro re rc Zbase Zin Zout Vin Av Vout REop Ibias IS,
      App.DCAnalysis VCC Beta RS R1 R2 RE1 RE2 RC RL =
        some (VB, VE, ICEQ, VC, VCEQ) →
      App.ACAnalysis ICEQ VCC Beta RS R1 R2 RE1 RE2 RC RL Zg Vs VA Frequency
        = some (ro, re, rc, Zbase, Zin, Zout, Vin, Av, Vout) →
      App.Qpoint VCC VE rc RC = some REop →
      App.CurrentDrain VCC ICEQ R1 R2 = some (Ibias, IS) →
      VCC * IS = 0 →
      App.Power VCEQ ICEQ (App.MPP VCEQ ICEQ rc) RL VCC IS = none ∧
      App.calculate VCC RS R1 R2 RE1 RE2 RC RL Beta VA Zg Vs Frequency
        Duration = none) := by
  refine ⟨?_, ?_, ?_, ?_, ?_, ?_, ?_, ?_⟩
  · intro h
    have hdc : App.DCAnalysis VCC Beta RS R1 R2 RE1 RE2 RC RL = none := by
      simp [App.DCAnalysis, show R2 + R1 = 0 by linarith]
    exact ⟨hdc, by simp [App.calculate, hdc]⟩
  · intro h
    have hdc : App.DCAnalysis VCC Beta RS R1 R2 RE1 RE2 RC RL = none := by
      by_cases h21 : R2 + R1 = 0 <;> simp [App.DCAnalysis, h21, h]
    exact ⟨hdc, by simp [App.calculate, hdc]⟩
  · intro VB VE ICEQ VC VCEQ hdc hI
    have hac : App.ACAnalysis ICEQ VCC Beta RS R1 R2 RE1 RE2 RC RL Zg Vs VA
        Frequency = none := by
      simp [App.ACAnalysis, hI]
    exact ⟨hac, by simp [App.calculate, hdc, hac]⟩
  · intro VB VE ICEQ VC VCEQ hdc h
    have hac : App.ACAnalysis ICEQ VCC Beta RS R1 R2 RE1 RE2 RC RL Zg Vs VA
        Frequency = none := by
      by_cases h1 : ICEQ = 0
      · simp [App.ACAnalysis, h1]
      · simp only [App.ACAnalysis, h1]
        simp [App.ACAnalysis, h1]
        intro _ _ h3
        exact absurd (by simpa [one_div] using h) h3
    exact ⟨hac, by simp [App.calculate, hdc, hac]⟩
  · intro VB VE ICEQ VC VCEQ hdc h
    have hac : App.ACAnalysis ICEQ VCC Beta RS R1 R2 RE1 RE2 RC RL Zg Vs VA
        Frequency = none := by
      by_cases h1 : ICEQ = 0
      · simp [App.ACAnalysis, h1]
      · simp [App.ACAnalysis, h1]
        intro _ _ _ _ _ _ _ h8
        exact absurd (by simpa [one_div, mul_inv_rev] using h) h8
    exact ⟨hac, by simp [App.calculate, hdc, hac]⟩
  · intro VB VE ICEQ VC VCEQ hdc h
    have hac : App.ACAnalysis ICEQ VCC Beta RS R1 R2 RE1 RE2 RC RL Zg Vs VA
        Frequency = none := by
      by_cases h1 : ICEQ = 0
      · simp [App.ACAnalysis, h1]
      · simp [App.ACAnalysis, h1]
        intro _ _ _ _ _ _ _ _ _ h10
        exact absurd (by simpa [one_div, one_div_div] using h) h10
    exact ⟨hac, by simp [App.calculate, hdc, hac]⟩
  · intro VB VE ICEQ VC VCEQ ro re rc Zbase Zin Zout Vin Av Vout hdc hac hveq
    have hq : App.Qpoint VCC VE rc RC = none := by simp [App.Qpoint, hveq]
    exact ⟨hq, by simp [App.calculate, hdc, hac, hq]⟩
  · intro VB VE ICEQ VC VCEQ ro re rc Zbase Zin Zout Vin Av Vout REop Ibias
      IS hdc hac hq hcd hps
    have hpw : App.Power VCEQ ICEQ (App.MPP VCEQ ICEQ rc) RL VCC IS
        = none := by
      by_cases h8 : 8 * RL = 0 <;> simp [App.Power, h8, hps]
    exact ⟨hpw, by simp [App.calculate, hdc, hac, hq, hcd, hpw]⟩

set_option maxHeartbeats 1000000 in
/-- Witness for C7: one concrete input per zero denominator — `R1 = R2 = 0`;
`RE1 = RE2 = 0`; `VCC = 7/5` giving `ICEQ = 0`; `RL = −RC` zeroing the `rc`
sum; `Beta = −20/41` zeroing the `Zin` sum; `VA = −1/2` zeroing the `Zout`
sum; `VCC = −7/5` giving `VCC − VE = 0`; and `VCC = 7/10` giving `IS = 0`,
hence `PS = 0`. -/
theorem calculate_zero_denominator_witness :
    (App.DCAnalysis 0 0 0 0 0 0 0 0 0 = none ∧
      App.calculate 0 0 0 0 0 0 0 0 0 0 0 0 0 0 = none) ∧
    (App.DCAnalysis 0 0 0 1 1 0 0 0 0 = none ∧
      App.calculate 0 0 1 1 0 0 0 0 0 0 0 0 0 0 = none) ∧
    (App.ACAnalysis 0 (7 / 5) 0 0 1 1 1 0 1 1 0 0 0 0 = none ∧
      App.calculate (7 / 5) 0 1 1 1 0 1 1 0 0 0 0 0 0 = none) ∧
    (App.ACAnalysis (93 / 10) 20 0 0 1 1 1 0 1 (-1) 0 0 0 0 = none ∧
      App.calculate 20 0 1 1 1 0 1 (-1) 0 0 0 0 0 0 = none) ∧
    (App.ACAnalysis 1 (17 / 5) (-20 / 41) 0 1 1 1 0 1 1 0 0 0 0 = none ∧
      App.calculate (17 / 5) 0 1 1 1 0 1 1 (-20 / 41) 0 0 0 0 0 = none) ∧
    (App.ACAnalysis 1 (17 / 5) 1 0 1 1 1 0 1 1 0 0 (-1 / 2) 0 = none ∧
      App.calculate (17 / 5) 0 1 1 1 0 1 1 1 (-1 / 2) 0 0 0 0 = none) ∧
    (App.Qpoint (-7 / 5) (-7 / 5) (1 / 2) 1 = none ∧
      App.calculate (-7 / 5) 0 1 1 1 0 1 1 1 1 0 1 0 0 = none) ∧
    (App.Power (7 / 5) (-7 / 20) (App.MPP (7 / 5) (-7 / 20) (1 / 2)) 1
        (7 / 10) 0 = none ∧
      App.calculate (7 / 10) 0 1 1 1 0 1 1 1 1 0 1 0 0 = none) :=
  ⟨(calculate_zero_denominator 0 0 0 0 0 0 0 0 0 0 0 0 0 0).1 (by norm_num),
    (calculate_zero_denominator 0 0 1 1 0 0 0 0 0 0 0 0 0 0).2.1
      (by norm_num),
    (calculate_zero_denominator (7 / 5) 0 1 1 1 0 1 1 0 0 0 0 0 0).2.2.1
      (7 / 10) 0 0 (7 / 5) (7 / 5) (by norm_num [App.DCAnalysis]) rfl,
    (calculate_zero_denominator 20 0 1 1 1 0 1 (-1) 0 0 0 0 0 0).2.2.2.1
      10 (93 / 10) (93 / 10) (107 / 10) (7 / 5)
      (by norm_num [App.DCAnalysis]) (by norm_num),
    (calculate_zero_denominator (17 / 5) 0 1 1 1 0 1 1 (-20 / 41) 0 0 0 0
        0).2.2.2.2.1
      (17 / 10) 1 1 (12 / 5) (7 / 5)
      (by norm_num [App.DCAnalysis]) (by norm_num),
    (calculate_zero_denominator (17 / 5) 0 1 1 1 0 1 1 1 (-1 / 2) 0 0 0
        0).2.2.2.2.2.1
      (17 / 10) 1 1 (12 / 5) (7 / 5)
      (by norm_num [App.DCAnalysis]) (by norm_num),
    (calculate_zero_denominator (-7 / 5) 0 1 1 1 0 1 1 1 1 0 1 0
        0).2.2.2.2.2.2.1
      (-7 / 10) (-7 / 5) (-7 / 5) 0 (7 / 5) (-5 / 7) (-1 / 56) (1 / 2)
      (55 / 56) (55 / 166) (5 / 3) 1 (28 / 55) (28 / 55)
      (by norm_num [App.DCAnalysis]) (by norm_num [App.ACAnalysis])
      (by norm_num),
    (calculate_zero_denominator (7 / 10) 0 1 1 1 0 1 1 1 1 0 1 0
        0).2.2.2.2.2.2.2
      (7 / 20) (-7 / 20) (-7 / 20) (21 / 20) (7 / 5) (-20 / 7) (-1 / 14)
      (1 / 2) (13 / 14) (13 / 40) (20 / 33) 1 (7 / 13) (7 / 13) (-1 / 2)
      (7 / 20) 0
      (by norm_num [App.DCAnalysis]) (by norm_num [App.ACAnalysis])
      (by norm_num [App.Qpoint]) (by norm_num [App.CurrentDrain])
      (by norm_num)⟩

/-- C10: with `RC ≠ 0` and `rc ≠ 0` the load-line stages return the intercept
pairs `(VCC − VE, (VCC − VE)/RC)` and `(VCEQ + ICEQ·rc, ICEQ + VCEQ/rc)`, and
these satisfy `ICsaturation·RC = VCEcutoff` and `ACsaturation·rc = ACcutoff`:
each pair lies on one line of slope `−1/RC` (DC) resp. `−1/rc` (AC). -/
theorem loadline_intercepts (VCC VE VCEQ ICEQ RC rc : ℚ)
    (hRC : RC ≠ 0) (hrc : rc ≠ 0) :
    App.DCLoadline VCC VE RC = some (VCC - VE, (VCC - VE) / RC) ∧
    (VCC - VE) / RC * RC = VCC - VE ∧
    App.ACLoadline VCEQ ICEQ rc = some (VCEQ + ICEQ * rc, ICEQ + VCEQ / rc) ∧
    (ICEQ + VCEQ / rc) * rc = VCEQ + ICEQ * rc := by
  refine ⟨by simp [App.DCLoadline, hRC], div_mul_cancel₀ _ hRC,
    by simp [App.ACLoadline, hrc], ?_⟩
  rw [add_mul, div_mul_cancel₀ _ hrc, add_comm]

/-- Witness for C10 at `VCC = 20`, `VE = 1`, `VCEQ = 2`, `ICEQ = 3`,
`RC = 5`, `rc = 7`. -/
theorem loadline_intercepts_witness :
    App.DCLoadline 20 1 5 = some (20 - 1, (20 - 1) / 5) ∧
    (20 - 1 : ℚ) / 5 * 5 = 20 - 1 ∧
    App.ACLoadline 2 3 7 = some (2 + 3 * 7, 3 + 2 / 7) ∧
    ((3 : ℚ) + 2 / 7) * 7 = 2 + 3 * 7 :=
  loadline_intercepts 20 1 2 3 5 7 (by norm_num) (by norm_num)

/-- Length of an `arange` grid: the ceiling of the span over the step. -/
theorem arange_length (start stop step : ℚ) :
    (App.arange start stop step).length = (⌈(stop - start) / step⌉).toNat := by
  simp [App.arange]

/-- Last element of a nonempty `arange` grid. -/
theorem arange_getLast (start stop step : ℚ) (m : ℕ)
    (h : (⌈(stop - start) / step⌉).toNat = m + 1) :
    (App.arange start stop step).getLast? = some (start + (m : ℚ) * step) := by
  rw [App.arange, h, List.range_succ, List.map_append]
  exact List.getLast?_concat _

/-- C8 fails on the code: at `Duration = 1/20`, `Frequency = 1` (both
positive) the time grid has `4` samples, but `⌊Duration·50·Frequency⌋ + 1`
is `⌊5/2⌋ + 1 = 3`: numpy's `arange(0, Duration + Ts, Ts)` takes a ceiling,
not a floor, when `Duration·50·Frequency` is not an integer. -/
theorem waveform_count_claim_false :
    (0 : ℚ) < 1 / 20 ∧ (0 : ℚ) < 1 ∧
    (App.Waveforms (1 / 20) 1 0 0).map List.length = some 4 ∧
    (⌊(1 / 20 : ℚ) * (50 * 1)⌋ + 1 : ℤ) ≠ 4 := by
  have h4 : ⌈(7 / 2 : ℚ)⌉ = (4 : ℤ) := by norm_num [Int.ceil_eq_iff]
  refine ⟨by norm_num, by norm_num, ?_, by norm_num⟩
  norm_num [App.Waveforms, App.arange]
  rw [h4]
  rfl

/-- C8 amended: for every `Duration > 0` and `Frequency > 0` the waveform
time grid contains exactly `⌈Duration·50·Frequency⌉ + 1` samples (the claimed
floor must be a ceiling; the two agree whenever `Duration·50·Frequency` is an
integer, in particular on the reference inputs), and its last sample time is
`≥ Duration`. -/
theorem waveform_grid (Duration Frequency Vs Vout : ℚ)
    (hD : 0 < Duration) (hF : 0 < Frequency) :
    ∃ t1, App.Waveforms Duration Frequency Vs Vout = some t1 ∧
      (t1.length : ℤ) = ⌈Duration * (50 * Frequency)⌉ + 1 ∧
      ∃ last, t1.getLast? = some last ∧ Duration ≤ last := by
  have hS : (0 : ℚ) < 50 * Frequency := by positivity
  have hS' : (50 : ℚ) * Frequency ≠ 0 := ne_of_gt hS
  have hx : (Duration + 1 / (50 * Frequency) - 0) / (1 / (50 * Frequency))
      = Duration * (50 * Frequency) + 1 := by
    rw [sub_zero, add_div, div_self (one_div_ne_zero hS'), one_div,
      div_inv_eq_mul]
  have hpos : (0 : ℤ) < ⌈Duration * (50 * Frequency)⌉ :=
    Int.ceil_pos.mpr (by positivity)
  have hc : ⌈(Duration + 1 / (50 * Frequency) - 0) / (1 / (50 * Frequency))⌉
      = ⌈Duration * (50 * Frequency)⌉ + 1 := by
    rw [hx, Int.ceil_add_one]
  have hn : (⌈(Duration + 1 / (50 * Frequency) - 0) /
        (1 / (50 * Frequency))⌉).toNat
      = (⌈Duration * (50 * Frequency)⌉).toNat + 1 := by
    rw [hc]; omega
  refine ⟨App.arange 0 (Duration + 1 / (50 * Frequency)) (1 / (50 * Frequency)),
    by simp [App.Waveforms, hS'], ?_, ?_⟩
  · rw [arange_length, hn]
    push_cast
    omega
  · refine ⟨0 + ((⌈Duration * (50 * Frequency)⌉).toNat : ℚ) *
      (1 / (50 * Frequency)), arange_getLast _ _ _ _ hn, ?_⟩
    have h1 : Duration * (50 * Frequency)
        ≤ ((⌈Duration * (50 * Frequency)⌉).toNat : ℚ) := by
      have h2 : ((⌈Duration * (50 * Frequency)⌉).toNat : ℤ)
          = ⌈Duration * (50 * Frequency)⌉ := Int.toNat_of_nonneg hpos.le
      calc Duration * (50 * Frequency)
          ≤ ((⌈Duration * (50 * Frequency)⌉ : ℤ) : ℚ) := Int.le_ceil _
        _ = ((⌈Duration * (50 * Frequency)⌉).toNat : ℚ) := by
            exact_mod_cast (congrArg (fun z : ℤ => (z : ℚ)) h2).symm
    calc Duration = Duration * (50 * Frequency) * (1 / (50 * Frequency)) := by
          field_simp
      _ ≤ ((⌈Duration * (50 * Frequency)⌉).toNat : ℚ) * (1 / (50 * Frequency)) :=
          mul_le_mul_of_nonneg_right h1 (by positivity)
      _ = 0 + ((⌈Duration * (50 * Frequency)⌉).toNat : ℚ) *
          (1 / (50 * Frequency)) := (zero_add _).symm

/-- Witness for C8 (amended) at `Duration = 1/20`, `Frequency = 1`. -/
theorem waveform_grid_witness :
    ∃ t1, App.Waveforms (1 / 20) 1 0 0 = some t1 ∧
      (t1.length : ℤ) = ⌈(1 / 20 : ℚ) * (50 * 1)⌉ + 1 ∧
      ∃ last, t1.getLast? = some last ∧ (1 / 20 : ℚ) ≤ last :=
  waveform_grid (1 / 20) 1 0 0 (by norm_num) (by norm_num)

/-- C9: every duplicated computation stage of the scripted variant computes
the same numeric results as the GUI variant once the script's module-level
globals (`VCC`, `RC`, `R1`, `R2`, `RL`, `Mpp`, `rc` — the leading arguments
of the `Script` definitions) are bound to the values the GUI passes as
parameters; in particular the script's `Qpoint(VE, rc)` (globals `VCC`,
`RC`) equals the App's `Qpoint(VCC, VE, rc, RC)`, i.e.
`REop = VE·(RC+rc)/(VCC−VE)` with the same `RC` and `VCC` in both variants,
and the script's `Loadlineplot` (globals `VCC`, `rc`) equals the App's
parameter-passing `Loadlineplot`.  The script's `DCAnalysis` returns the
App's result minus its leading `VB` component. -/
theorem script_app_stage_equivalence
    (VCC RS R1 R2 RE1 RE2 RC RL Beta VA Zg Vs Frequency Duration
      VE VCEQ ICEQ rc Mpp IS Vout
      VCEcutoff ICsaturation ACcutoff ACsaturation : ℚ) :
    Script.DCAnalysis VCC Beta RS R1 R2 RE1 RE2 RC RL =
      (App.DCAnalysis VCC Beta RS R1 R2 RE1 RE2 RC RL).map
        (fun r => (r.2.1, r.2.2.1, r.2.2.2.1, r.2.2.2.2)) ∧
    Script.ACAnalysis ICEQ VCC Beta RS R1 R2 RE1 RE2 RC RL Zg Vs VA Frequency =
      App.ACAnalysis ICEQ VCC Beta RS R1 R2 RE1 RE2 RC RL Zg Vs VA Frequency ∧
    Script.Qpoint VCC RC VE rc = App.Qpoint VCC VE rc RC ∧
    Script.MPP VCEQ ICEQ rc = App.MPP VCEQ ICEQ rc ∧
    Script.CurrentDrain VCC R1 R2 ICEQ = App.CurrentDrain VCC ICEQ R1 R2 ∧
    Script.Power Mpp RL VCC VCEQ ICEQ IS = App.Power VCEQ ICEQ Mpp RL VCC IS ∧
    Script.DCLoadline VCC RC VE = App.DCLoadline VCC VE RC ∧
    Script.ACLoadline VCEQ ICEQ rc = App.ACLoadline VCEQ ICEQ rc ∧
    Script.Loadlineplot VCC rc VCEcutoff ICsaturation ACcutoff ACsaturation =
      App.Loadlineplot VCEcutoff ICsaturation ACcutoff ACsaturation VCC rc ∧
    Script.Waveforms Duration Frequency Vs Vout =
      App.Waveforms Duration Frequency Vs Vout := by
  refine ⟨?_, rfl, rfl, rfl, rfl, rfl, rfl, rfl, rfl, rfl⟩
  by_cases h1 : R2 + R1 = 0
  · simp [Script.DCAnalysis, App.DCAnalysis, h1]
  · by_cases h2 : RE1 + RE2 = 0 <;>
      simp [Script.DCAnalysis, App.DCAnalysis, h1, h2]

/-- C3 fails on the code: at `ICEQ = 1`, `VCC = 1`, `Beta = 1`, `RS = 0`,
`R1 = R2 = RC = RL = 1`, `RE1 = RE2 = 0`, `Zg = −1/42`, `Vs = 1`, `VA = 1`,
`Frequency = 1`, every hypothesis the claim lists holds — `ICEQ`, `R1`, `R2`,
`RC`, `RL` and `Beta·(RE1+re)` are nonzero and all three aggregate reciprocal
sums are nonzero — yet the AC stage raises `ZeroDivisionError` (returns
`none`) instead of the claimed formulas, because the unlisted denominator
`Zin + Zg + RS` is zero. -/
theorem ACAnalysis_claim_false :
    (1 : ℚ) ≠ 0 ∧
    (1 : ℚ) * (0 + 0.025 / 1) ≠ 0 ∧
    (1 / (1 : ℚ) + 1 / 1 ≠ 0) ∧
    (1 / (1 : ℚ) + 1 / 1 + 1 / (1 * (0 + 0.025 / 1)) ≠ 0) ∧
    (1 / (1 : ℚ) + 1 / 1 + 1 / (1 / 1) ≠ 0) ∧
    App.ACAnalysis 1 1 1 0 1 1 0 0 1 1 (-1 / 42) 1 1 1 = none := by
  refine ⟨by norm_num, by norm_num, by norm_num, by norm_num, by norm_num, ?_⟩
  norm_num [App.ACAnalysis]

/-- C3 amended: the AC stage returns exactly the claimed formulas under the
claim's hypotheses once the two denominators the claim omits are also
required to be nonzero: `ro = VA/ICEQ` (the reciprocal inside the `Zout` sum)
and the `Vin` denominator `Zin + Zg + RS`. -/
theorem ACAnalysis_equations
    (ICEQ VCC Beta RS R1 R2 RE1 RE2 RC RL Zg Vs VA Frequency : ℚ)
    (hI : ICEQ ≠ 0) (hR1 : R1 ≠ 0) (hR2 : R2 ≠ 0) (hRC : RC ≠ 0)
    (hRL : RL ≠ 0)
    (hZb : Beta * (RE1 + 0.025 / ICEQ) ≠ 0)
    (hrc : 1 / RC + 1 / RL ≠ 0)
    (hZin : 1 / R1 + 1 / R2 + 1 / (Beta * (RE1 + 0.025 / ICEQ)) ≠ 0)
    (hro : VA / ICEQ ≠ 0)
    (hZout : 1 / RC + 1 / RL + 1 / (VA / ICEQ) ≠ 0)
    (hVin : RS + 1 / (1 / R1 + 1 / R2 + 1 / (Beta * (RE1 + 0.025 / ICEQ)))
      + Zg + RS ≠ 0) :
    ∃ ro re rc Zbase Zin Zout Vin Av Vout,
      App.ACAnalysis ICEQ VCC Beta RS R1 R2 RE1 RE2 RC RL Zg Vs VA Frequency =
        some (ro, re, rc, Zbase, Zin, Zout, Vin, Av, Vout) ∧
      ro = VA / ICEQ ∧ re = 0.025 / ICEQ ∧ rc = 1 / (1 / RC + 1 / RL) ∧
      Zbase = Beta * (RE1 + re) ∧
      Zin = RS + 1 / (1 / R1 + 1 / R2 + 1 / (Beta * (RE1 + re))) ∧
      Zout = 1 / (1 / RC + 1 / RL + 1 / ro) ∧
      Vin = Vs * (Zin / (Zin + Zg + RS)) ∧
      Av = rc / (RE1 + re) ∧ Vout = Av * Vin := by
  refine ⟨VA / ICEQ, 0.025 / ICEQ, 1 / (1 / RC + 1 / RL),
    (RE1 + 0.025 / ICEQ) * Beta,
    RS + 1 / (1 / R1 + 1 / R2 + 1 / (Beta * (RE1 + 0.025 / ICEQ))),
    1 / (1 / RC + 1 / RL + 1 / (VA / ICEQ)),
    Vs * ((RS + 1 / (1 / R1 + 1 / R2 + 1 / (Beta * (RE1 + 0.025 / ICEQ)))) /
      (RS + 1 / (1 / R1 + 1 / R2 + 1 / (Beta * (RE1 + 0.025 / ICEQ)))
        + Zg + RS)),
    1 / (1 / RC + 1 / RL) / (RE1 + 0.025 / ICEQ),
    1 / (1 / RC + 1 / RL) / (RE1 + 0.025 / ICEQ) *
      (Vs * ((RS + 1 / (1 / R1 + 1 / R2 + 1 / (Beta * (RE1 + 0.025 / ICEQ)))) /
        (RS + 1 / (1 / R1 + 1 / R2 + 1 / (Beta * (RE1 + 0.025 / ICEQ)))
          + Zg + RS))),
    ?_, rfl, rfl, rfl, mul_comm _ _, rfl, rfl, rfl, rfl, rfl⟩
  simp [App.ACAnalysis, hI, hR1, hR2, hRC, hRL, hZb, hrc, hZin, hro, hZout,
    hVin]
  exact ⟨by simpa [one_div] using hrc,
    by simpa [one_div, mul_inv_rev] using hZin,
    by simpa [one_div, one_div_div] using hZout,
    by simpa [one_div, mul_inv_rev] using hVin,
    (mul_ne_zero_iff.mp hZb).2⟩

/-- Witness for C3 (amended) at `ICEQ = 1`, `VCC = 20`, `Beta = 2`,
`RS = R1 = R2 = RE1 = RE2 = RC = RL = Zg = Vs = VA = Frequency = 1`. -/
theorem ACAnalysis_equations_witness :
    ∃ ro re rc Zbase Zin Zout Vin Av Vout,
      App.ACAnalysis 1 20 2 1 1 1 1 1 1 1 1 1 1 1 =
        some (ro, re, rc, Zbase, Zin, Zout, Vin, Av, Vout) ∧
      ro = 1 / 1 ∧ re = 0.025 / 1 ∧ rc = 1 / (1 / 1 + 1 / 1) ∧
      Zbase = 2 * (1 + re) ∧
      Zin = 1 + 1 / (1 / 1 + 1 / 1 + 1 / (2 * (1 + re))) ∧
      Zout = 1 / (1 / 1 + 1 / 1 + 1 / ro) ∧
      Vin = 1 * (Zin / (Zin + 1 + 1)) ∧
      Av = rc / (1 + re) ∧ Vout = Av * Vin :=
  ACAnalysis_equations 1 20 2 1 1 1 1 1 1 1 1 1 1 1 (by norm_num)
    (by norm_num) (by norm_num) (by norm_num) (by norm_num) (by norm_num)
    (by norm_num) (by norm_num) (by norm_num) (by norm_num) (by norm_num)

set_option maxHeartbeats 1000000 in
/-- C6 fails on the code: at `VCC = 20`, `R1 = R2 = RS = RE2 = RL = 1`,
`RE1 = 92`, `RC = 100000` (all resistances positive) the pipeline yields
`ICEQ = 1/10 > 0`, `Ibias = 10 > 0`, `PS = 202 > 0`, yet
`Efficiency = 9978611449/404 ≈ 2.47·10⁷ > 100`: with this over-biased
operating point `VCEQ = −99893/10` is negative, `Mpp = 2·VCEQ` is hugely
negative, and `PL = Mpp²/(8·RL)` dwarfs `PS`. -/
theorem efficiency_claim_false :
    (0 : ℚ) < 1 ∧ (0 : ℚ) < 92 ∧ (0 : ℚ) < 100000 ∧
    App.DCAnalysis 20 1 1 1 1 92 1 100000 1 =
      some (10, 93 / 10, 1 / 10, -9980, -99893 / 10) ∧
    (App.ACAnalysis (1 / 10) 20 1 1 1 1 92 1 100000 1 0 1 1 1).map
      (fun r => r.2.2.1) = some (100000 / 100001) ∧
    (0 : ℚ) < 1 / 10 ∧
    App.CurrentDrain 20 (1 / 10) 1 1 = some (10, 101 / 10) ∧
    (0 : ℚ) < 10 ∧
    App.MPP (-99893 / 10) (1 / 10) (100000 / 100001) = -99893 / 5 ∧
    App.Power (-99893 / 10) (1 / 10) (-99893 / 5) 1 20 (101 / 10) =
      some (-99893 / 100, 9978611449 / 200, 202, 9978611449 / 404) ∧
    (0 : ℚ) < 202 ∧
    (100 : ℚ) < 9978611449 / 404 := by
  refine ⟨by norm_num, by norm_num, by norm_num, by norm_num [App.DCAnalysis],
    by norm_num [App.ACAnalysis], by norm_num,
    by norm_num [App.CurrentDrain], by norm_num,
    by norm_num [App.MPP, min_def], by norm_num [App.Power],
    by norm_num, by norm_num⟩

set_option maxHeartbeats 1000000 in
/-- C6 amended: with all resistances positive, `ICEQ > 0`, `Ibias > 0`,
`PS > 0` — and additionally a non-negative quiescent voltage `VCEQ ≥ 0`,
which the counterexample forces — the Efficiency returned by the Power stage
on the pipeline's own values lies in `[0, 100]` (indeed in `[0, 50]`). -/
theorem efficiency_in_range
    (VCC Beta RS R1 R2 RE1 RE2 RC RL Zg Vs VA Frequency : ℚ)
    (VB VE ICEQ VC VCEQ ro re rc Zbase Zin Zout Vin Av Vout
      Ibias IS PD PL PS Efficiency : ℚ)
    (hRS : 0 < RS) (hR1 : 0 < R1) (hR2 : 0 < R2) (hRE1 : 0 < RE1)
    (hRE2 : 0 < RE2) (hRC : 0 < RC) (hRL : 0 < RL)
    (hdc : App.DCAnalysis VCC Beta RS R1 R2 RE1 RE2 RC RL =
      some (VB, VE, ICEQ, VC, VCEQ))
    (hac : App.ACAnalysis ICEQ VCC Beta RS R1 R2 RE1 RE2 RC RL Zg Vs VA
      Frequency = some (ro, re, rc, Zbase, Zin, Zout, Vin, Av, Vout))
    (hcd : App.CurrentDrain VCC ICEQ R1 R2 = some (Ibias, IS))
    (hpw : App.Power VCEQ ICEQ (App.MPP VCEQ ICEQ rc) RL VCC IS =
      some (PD, PL, PS, Efficiency))
    (hICEQ : 0 < ICEQ) (hIbias : 0 < Ibias) (hPS : 0 < PS)
    (hVCEQ : 0 ≤ VCEQ) :
    0 ≤ Efficiency ∧ Efficiency ≤ 100 := by
  have h21 : R2 + R1 ≠ 0 := ne_of_gt (by linarith)
  have hRE : RE1 + RE2 ≠ 0 := ne_of_gt (by linarith)
  simp only [App.DCAnalysis] at hdc
  rw [if_neg h21, if_neg hRE] at hdc
  simp only [Option.some.injEq, Prod.mk.injEq] at hdc
  obtain ⟨eVB, eVE, eICEQ, eVC, eVCEQ⟩ := hdc
  have hVE : VE = ICEQ * (RE1 + RE2) := by
    rw [← eVE, ← eICEQ]
    exact (div_mul_cancel₀ _ hRE).symm
  have hVEpos : 0 < VE := by
    rw [hVE]; exact mul_pos hICEQ (by linarith)
  have hVCEQ_eq : VCEQ = VCC - ICEQ * RC - VE := by
    rw [← eVCEQ, ← eICEQ, ← eVE]
  -- AC stage: extract rc
  have hrcden : (0 : ℚ) < 1 / RC + 1 / RL := by
    have := one_div_pos.mpr hRC
    have := one_div_pos.mpr hRL
    linarith
  simp only [App.ACAnalysis] at hac
  rw [if_neg (ne_of_gt hICEQ), if_neg (ne_of_gt hRC), if_neg (ne_of_gt hRL),
    if_neg (ne_of_gt hrcden), if_neg (ne_of_gt hR1), if_neg (ne_of_gt hR2)]
    at hac
  split_ifs at hac with hb1 hb2 hb3 hb4 hb5 hb6
  simp only [Option.some.injEq, Prod.mk.injEq] at hac
  obtain ⟨ero, ere, erc, eZb, eZin, eZout, eVin, eAv, eVout⟩ := hac
  have hrcpos : 0 < rc := by rw [← erc]; exact one_div_pos.mpr hrcden
  have hrcle : rc ≤ RL := by
    rw [← erc]
    have h1 : 1 / RL ≤ 1 / RC + 1 / RL := by
      have := one_div_pos.mpr hRC; linarith
    have h2 := one_div_le_one_div_of_le (one_div_pos.mpr hRL) h1
    rwa [one_div_one_div] at h2
  -- current drain
  have h12 : (0 : ℚ) < R1 + R2 := by linarith
  simp only [App.CurrentDrain] at hcd
  rw [if_neg (ne_of_gt h12)] at hcd
  simp only [Option.some.injEq, Prod.mk.injEq] at hcd
  obtain ⟨eIb, eIS⟩ := hcd
  have hVCC : 0 < VCC := by
    have h3 : Ibias * (R1 + R2) = VCC := by
      rw [← eIb]; exact div_mul_cancel₀ _ (ne_of_gt h12)
    nlinarith [mul_pos hIbias h12]
  have hIS : IS = Ibias + ICEQ := by rw [← eIS, ← eIb]
  have hISpos : 0 < IS := by rw [hIS]; linarith
  -- power stage
  set M := App.MPP VCEQ ICEQ rc with hMset
  have h8RL : (0 : ℚ) < 8 * RL := by linarith
  simp only [App.Power] at hpw
  rw [if_neg (ne_of_gt h8RL), if_neg (ne_of_gt (mul_pos hVCC hISpos))] at hpw
  simp only [Option.some.injEq, Prod.mk.injEq] at hpw
  obtain ⟨ePD, ePL, ePS, eEff⟩ := hpw
  clear eVB eVC ero ere eZb eZin eZout eVin eAv eVout eIS ePD
  clear hb1 hb2 hb3 hb4 hb5 hb6
  -- MPP properties
  have hMdef : M = min (2 * (ICEQ * rc)) (2 * VCEQ) := rfl
  have hMle1 : M ≤ 2 * (ICEQ * rc) := hMdef ▸ min_le_left _ _
  have hMle2 : M ≤ 2 * VCEQ := hMdef ▸ min_le_right _ _
  have hMnn : 0 ≤ M := by
    rw [hMdef]
    have := mul_pos hICEQ hrcpos
    exact le_min (by linarith) (by linarith)
  have hVCEQle : VCEQ ≤ VCC := by
    have h1 : 0 < ICEQ * RC := mul_pos hICEQ hRC
    linarith [hVCEQ_eq]
  have hIrc : 0 ≤ 2 * (ICEQ * rc) := by nlinarith [mul_pos hICEQ hrcpos]
  have hM2 : M ^ 2 ≤ 2 * (ICEQ * rc) * (2 * VCEQ) := by
    have s1 : M * M ≤ 2 * (ICEQ * rc) * M :=
      mul_le_mul_of_nonneg_right hMle1 hMnn
    have s2 : 2 * (ICEQ * rc) * M ≤ 2 * (ICEQ * rc) * (2 * VCEQ) :=
      mul_le_mul_of_nonneg_left hMle2 hIrc
    nlinarith [s1, s2]
  have hnum : 2 * (ICEQ * rc) * (2 * VCEQ) ≤ 4 * (ICEQ * (RL * VCC)) := by
    have t1 : 0 ≤ ICEQ * (RL * (VCC - VCEQ)) :=
      mul_nonneg hICEQ.le (mul_nonneg hRL.le (by linarith))
    have t2 : 0 ≤ ICEQ * (VCEQ * (RL - rc)) :=
      mul_nonneg hICEQ.le (mul_nonneg hVCEQ (by linarith))
    nlinarith [t1, t2]
  have hPSeq : PS = VCC * (Ibias + ICEQ) := by rw [← ePS, hIS]
  have hPSge : 4 * (ICEQ * (RL * VCC)) ≤ 4 * RL * PS := by
    nlinarith [mul_pos (mul_pos hRL hVCC) hIbias, hPSeq]
  have hPL : PL ≤ PS / 2 := by
    rw [← ePL, div_le_iff₀ h8RL]
    have hr : PS / 2 * (8 * RL) = 4 * RL * PS := by ring
    rw [hr]
    linarith [hM2, hnum, hPSge]
  have hEff : Efficiency = PL / PS * 100 := by rw [← eEff, ePL, ePS]
  have hPLnn : 0 ≤ PL := by
    rw [← ePL]
    exact div_nonneg (sq_nonneg M) h8RL.le
  constructor
  · rw [hEff]
    have h0 : 0 ≤ PL / PS := div_nonneg hPLnn hPS.le
    linarith
  · rw [hEff]
    have h1 : PL / PS ≤ 1 := (div_le_one hPS).mpr (by linarith)
    linarith

set_option maxHeartbeats 1000000 in
/-- Witness for C6 (amended): at the all-ones circuit with `VCC = 20` the
pipeline gives `Efficiency = 8649/9376 ≈ 0.92`, inside `[0, 100]`. -/
theorem efficiency_in_range_witness :
    0 ≤ (8649 / 9376 : ℚ) ∧ (8649 / 9376 : ℚ) ≤ 100 :=
  efficiency_in_range 20 1 1 1 1 1 1 1 1 0 1 1 1
    10 (93 / 10) (93 / 20) (307 / 20) (121 / 20) (20 / 93) (1 / 186) (1 / 2)
    (187 / 186) (747 / 560) (20 / 133) (747 / 1307) (93 / 187)
    (69471 / 244409) 10 (293 / 20) (11253 / 400) (8649 / 3200) 293
    (8649 / 9376)
    (by norm_num) (by norm_num) (by norm_num) (by norm_num) (by norm_num)
    (by norm_num) (by norm_num)
    (by norm_num [App.DCAnalysis])
    (by norm_num [App.ACAnalysis])
    (by norm_num [App.CurrentDrain])
    (by norm_num [App.Power, App.MPP, min_def])
    (by norm_num) (by norm_num) (by norm_num) (by norm_num)
